import Mathlib

/-!
Verification development for the chat-bot repository.

Shallow embedding of the parts of the code base that the checked properties
concern: the RAG pipeline (moderation, retrieval, relevance checking, answer
generation and the langgraph wiring in rag_agent.py), the batched vector
write in pg_document_service.py, the general chunking strategy in
document_chunker.py, and the chunking settings in config/settings.py.

External capabilities (the OpenAI moderation chain, the vector store
similarity search, the relevance-judge LLM, the answer LLM, and langdetect)
are modelled as oracle functions collected in a Capabilities record; each
such call either returns a value or raises, which we model with Except.
-/

namespace ChatBot

/-- A raised Python exception, identified by its message. -/
structure PyErr where
  msg : String
deriving DecidableEq

/-- Dynamic Python values, as far as the embedded code inspects them:
strings, lists, tuples, dicts, the structured-output object of the relevance
chain, and coroutine objects (the value of an async call that has not been
awaited; the pending computation is carried but not run). -/
inductive PyVal where
  | str : String → PyVal
  | pylist : List PyVal → PyVal
  | pytuple : List PyVal → PyVal
  | pydict : List (String × PyVal) → PyVal
  | relevanceQuery : Bool → PyVal
  | coroutine : Except PyErr Bool → PyVal

/-- Reading the attribute named relevance off a dynamic value: it succeeds
only on the structured-output object RelevanceQuery; on every other value,
in particular on an un-awaited coroutine, Python raises AttributeError. -/
def getattrRelevance : PyVal → Except PyErr Bool
  | .relevanceQuery b => .ok b
  | _ => .error ⟨"AttributeError: object has no attribute relevance"⟩

/-- Document metadata dicts (string keys and values suffice here). -/
def Meta : Type := List (String × String)

/-! Constants from chat_bot/core/constants.py. -/

/-- constants.py: MODERATION_MESSAGE. -/
def MODERATION_MESSAGE : String :=
  "I\x27m sorry, but I can\x27t assist with that kind of request. Moderation has flagged the content as inappropriate."

/-- constants.py: RETRIEVAL_FAILED_MESSAGE (also the literal answer used by
relevance_failed_handler in nodes/relevance.py, which has the same text). -/
def RETRIEVAL_FAILED_MESSAGE : String :=
  "I couldn\x27t find information in the uploaded documents that\x27s relevant to your question. Please try asking about topics that are covered in your documents."

/-- constants.py: RETRIEVAL_TOP_K = 3. -/
def RETRIEVAL_TOP_K : Nat := 3

/-- nodes/answer_generation.py: the fixed answer returned when no documents
are available. -/
def NO_DOCUMENTS_ANSWER : String :=
  "I don\x27t have any documents to base my answer on."

/-- nodes/answer_generation.py: the templated string returned from the
except handler of generate_answer. -/
def answerErrorMessage (e : PyErr) : String :=
  "I encountered an error while generating the answer: " ++ e.msg

/-! Messages and state (rag_agent/state.py). -/

/-- Arguments of a retrieve_documents tool call. -/
structure ToolCallArgs where
  query : String
  k : Nat
deriving DecidableEq

/-- A tool call attached to an AI message. -/
structure ToolCall where
  name : String
  args : ToolCallArgs
  id : String

/-- Langchain messages, as far as the embedded code inspects them. -/
inductive Message where
  | human : String → Message
  | ai : String → List ToolCall → Message
  | tool : PyVal → String → Message

/-- The langgraph State TypedDict of rag_agent/state.py. Channels that are
absent in a given run are represented by their defaults (empty string or
list, false, none). The messages channel appends (add_messages). -/
structure State where
  input : String := ""
  answer : String := ""
  messages : List Message := []
  documents : List String := []
  sources : List String := []
  is_relevant : Bool := false
  moderated : Bool := false
  is_last_step : Bool := false
  retrieval_k : Option Nat := none
  error_message : Option String := none

/-- The response dict of OpenAIModerationChain.invoke: the chain echoes the
input unchanged in the output field when the text is safe, and substitutes
a violation text otherwise. -/
structure ModResponse where
  input : String
  output : String
deriving DecidableEq

/-- moderation.py reads safety off a chain response as input == output. -/
def ModResponse.is_safe (r : ModResponse) : Bool := r.input == r.output

/-- External capabilities used by the embedded code. Every call can either
return a value or raise. -/
structure Capabilities where
  /-- OpenAIModerationChain.invoke on the input text (moderation.py). -/
  moderationChain : String → Except PyErr ModResponse
  /-- vectorstore.asimilarity_search_by_vector in tools.py, as a list of
  (page_content, metadata) pairs. -/
  vectorSearch : String → Nat → Except PyErr (List (String × Meta))
  /-- The direct call retrieve_documents(query) made inside
  check_relevance (relevance.py line 77): calling the tool object as a
  plain function. Its behavior is left arbitrary. -/
  directToolCall : String → Except PyErr (List String × List Meta)
  /-- The structured-output relevance judgment the chain would produce if
  its coroutine were awaited (relevance.py). -/
  judge : String → Except PyErr Bool
  /-- self.llm.ainvoke in answer_generation.py, yielding the response
  content. -/
  llmGenerate : String → Except PyErr String
  /-- langdetect.detect in answer_generation.py. -/
  detect : String → Except PyErr String

/-! Moderation node (nodes/moderation.py). -/

/-- Moderation.moderate: invokes the moderation chain on state input,
returns input == output; the except handler defaults to safe (True). -/
def moderate (cap : Capabilities) (s : State) : Bool :=
  match cap.moderationChain s.input with
  | .ok response => response.input == response.output
  | .error _ => true

/-- Moderation.moderation_passed_handler. -/
def moderation_passed_handler (s : State) : State :=
  { s with moderated := true }

/-- Moderation.moderation_failed_handler. -/
def moderation_failed_handler (s : State) : State :=
  { s with moderated := false, answer := MODERATION_MESSAGE, is_last_step := true }

/-! Retrieval tool (rag_agent/tools.py). -/

/-- DocumentRetriever.get_relevant_documents: similarity search; the except
handler returns the empty list. -/
def get_relevant_documents (cap : Capabilities) (query : String) (k : Nat) :
    List (String × Meta) :=
  match cap.vectorSearch query k with
  | .ok docs => docs
  | .error _ => []

/-- The retrieve_documents tool body: returns (contents, metadata), or
([], []) when no documents were found. -/
def retrieve_documents (cap : Capabilities) (query : String) (k : Nat) :
    List String × List Meta :=
  let documents := get_relevant_documents cap query k
  if documents.isEmpty then ([], [])
  else (documents.map Prod.fst, documents.map Prod.snd)

/-! RAG agent nodes and wiring (rag_agent/rag_agent.py). -/

/-- RAGAgent._create_retrieval_message: appends an AI message carrying one
retrieve_documents tool call with k = state retrieval_k (default 5). -/
def create_retrieval_message (s : State) : State :=
  let query := s.input
  let retrieval_k := s.retrieval_k.getD 5
  let ai_message : Message :=
    .ai "I\x27ll search for relevant documents to answer your question."
      [{ name := "retrieve_documents",
         args := { query := query, k := retrieval_k },
         id := "retrieve_docs_call_1" }]
  { s with messages := s.messages ++ [ai_message], moderated := true }

/-- The tool calls the ToolNode will execute: those of the trailing AI
message. -/
def executed_tool_calls (s : State) : List ToolCallArgs :=
  match s.messages.getLast? with
  | some (.ai _ tool_calls) => tool_calls.map ToolCall.args
  | _ => []

/-- ToolNode([retrieve_documents]): executes each tool call of the trailing
AI message and appends a ToolMessage per call. The tool has
response_format content_and_artifact, so the ToolMessage content is the
content part of the returned pair: a list of strings (never a dict). -/
def tool_node (cap : Capabilities) (s : State) : State :=
  match s.messages.getLast? with
  | some (.ai _ tool_calls) =>
      let toolMsgs := tool_calls.map (fun tc =>
        let result := retrieve_documents cap tc.args.query tc.args.k
        Message.tool (.pylist (result.1.map .str)) tc.id)
      { s with messages := s.messages ++ toolMsgs }
  | _ => s

/-- The document-extraction test of RAGAgent._process_documents: a parsed
tool result contributes documents only when it is a dict containing the
key documents (holding a list of strings). -/
def pyvalDocuments : PyVal → List String
  | .pydict entries =>
      match entries.lookup "documents" with
      | some (.pylist vs) =>
          vs.filterMap (fun v => match v with | .str c => some c | _ => none)
      | _ => []
  | _ => []

/-- RAGAgent._process_documents: collects documents from tool messages via
the dict test above; when none were found, falls back to a direct
tool ainvoke, whose result for a content_and_artifact tool invoked with a
plain args dict is the content part only (a list of strings, never a
dict), so the dict test fails again. Writes the documents channel. -/
def process_documents (cap : Capabilities) (s : State) : State :=
  let documents := s.messages.foldl
    (fun acc m =>
      acc ++ (match m with | .tool content _ => pyvalDocuments content | _ => []))
    []
  let documents :=
    if documents.isEmpty then
      pyvalDocuments
        (.pylist ((retrieve_documents cap s.input (s.retrieval_k.getD 5)).1.map .str))
    else documents
  { s with documents := documents }

/-! Relevance node (nodes/relevance.py). -/

/-- The relevance prompt of RelevanceChecker (abridged: the checked
properties do not depend on the surrounding instruction text). -/
def format_relevance_prompt (query : String) (documents : String) : String :=
  "You are an expert at evaluating document relevance.\n\nUser Query: "
    ++ query ++ "\n\nRetrieved Documents:\n" ++ documents ++ "\n\nResponse:"

/-- The expression relevance_checker.ainvoke(prompt) in check_relevance:
an async call that is not awaited yields the coroutine object; the
judgment it would produce stays pending inside it. -/
def chainAInvoke (judge : String → Except PyErr Bool) (prompt : String) : PyVal :=
  .coroutine (judge prompt)

/-- The documents check_relevance works on: the state documents, unless
they are empty, in which case it first tries the direct call
retrieve_documents(query) and takes the content part. -/
def retrieved_documents (cap : Capabilities) (s : State) :
    Except PyErr (List String) :=
  if s.documents.isEmpty then
    match cap.directToolCall s.input with
    | .ok (content, _metadata) => .ok content
    | .error e => .error e
  else .ok s.documents

/-- Outcome of a check_relevance run: the returned boolean, and whether
the chain ainvoke call was reached (a coroutine was created). The
coroutine is never awaited, so the judge capability itself never runs. -/
structure RelevanceRun where
  result : Bool
  ainvoke_called : Bool
deriving DecidableEq

/-- RelevanceChecker.check_relevance. The try block retrieves documents if
the state has none, returns False on an empty document list, and otherwise
evaluates relevance_checker.ainvoke(prompt).relevance: the attribute is
read off the un-awaited coroutine, so this raises AttributeError, and the
except handler converts any raise in the try block to False. -/
def check_relevance_run (cap : Capabilities) (s : State) : RelevanceRun :=
  match retrieved_documents cap s with
  | .error _ => ⟨false, false⟩
  | .ok documents =>
    if documents.isEmpty then ⟨false, false⟩
    else
      let formatted_docs := String.intercalate "\n\n" documents
      let prompt := format_relevance_prompt s.input formatted_docs
      match getattrRelevance (chainAInvoke cap.judge prompt) with
      | .ok response => ⟨response, true⟩
      | .error _ => ⟨false, true⟩

/-- The boolean check_relevance returns to the graph. -/
def check_relevance (cap : Capabilities) (s : State) : Bool :=
  (check_relevance_run cap s).result

/-- RelevanceChecker.relevance_passed_handler. -/
def relevance_passed_handler (s : State) : State :=
  { s with is_last_step := false }

/-- RelevanceChecker.relevance_failed_handler. -/
def relevance_failed_handler (s : State) : State :=
  { s with answer := RETRIEVAL_FAILED_MESSAGE, is_last_step := true }

/-! Answer generation node (nodes/answer_generation.py). -/

/-- The answer prompt of AnswerGenerator (abridged). -/
def format_answer_prompt (context question language : String) : String :=
  "Context from documents:\n" ++ context ++ "\n\nUser Question: " ++ question
    ++ "\n\nThe question is in " ++ language ++ " language.\n\nAnswer:"

/-- Outcome of the try block of generate_answer, plus whether the answer
LLM was invoked. The language is detected first (detect is skipped for an
empty query), then the empty-documents short circuit applies, then the
LLM is called. -/
structure AnswerRun where
  outcome : Except PyErr String
  llm_called : Bool

/-- The try block of AnswerGenerator.generate_answer. -/
def generate_answer_run (cap : Capabilities) (s : State) : AnswerRun :=
  let query := s.input
  let documents := s.documents
  match (if query = "" then .ok "en" else cap.detect query :
      Except PyErr String) with
  | .error e => ⟨.error e, false⟩
  | .ok language =>
    if documents.isEmpty then ⟨.ok NO_DOCUMENTS_ANSWER, false⟩
    else
      let context := String.intercalate "\n\n" documents
      let prompt := format_answer_prompt context query language
      match cap.llmGenerate prompt with
      | .ok content => ⟨.ok content, true⟩
      | .error e => ⟨.error e, true⟩

/-- AnswerGenerator.generate_answer: the try block result, with any raise
converted by the except handler into the templated error answer. Always
produces a state update with a string answer. -/
def generate_answer (cap : Capabilities) (s : State) : State :=
  match (generate_answer_run cap s).outcome with
  | .ok answer_text => { s with answer := answer_text, is_last_step := true }
  | .error e => { s with answer := answerErrorMessage e, is_last_step := true }

/-! The compiled graph (RAGAgent.__langgraph_init and invoke_agent). -/

/-- One pipeline execution: the final state, the node names visited in
order, and the args of the retrieval tool calls the ToolNode executed. -/
structure PipelineRun where
  final : State
  visited : List String
  tool_calls : List ToolCallArgs

/-- The initial state built by invoke_agent: input, the constant
RETRIEVAL_TOP_K as retrieval_k, and one human message. -/
def initial_state (query : String) : State :=
  { input := query,
    retrieval_k := some RETRIEVAL_TOP_K,
    messages := [.human query] }

/-- RAGAgent.invoke_agent running the compiled graph. The retrieval_k
parameter is declared (default 5) but the body never reads it: the
initial state is built with the constant RETRIEVAL_TOP_K.

Edges, as wired in __langgraph_init: START conditionally branches on
moderate to moderation_passed (the _create_retrieval_message node) or
moderation_failed; moderation_passed goes to the retriever ToolNode, then
process_documents, then a conditional branch on check_relevance to
relevance_passed (followed by generate_answer) or relevance_failed; the
failure handlers and generate_answer go to END. check_relevance is an
edge condition: its in-place mutations of the state dict are not written
back to the graph channels, only its boolean is used. -/
def invoke_agent (cap : Capabilities) (query : String) (retrieval_k : Nat := 5) :
    PipelineRun :=
  let _ := retrieval_k
  let s0 := initial_state query
  if moderate cap s0 then
    let s1 := create_retrieval_message s0
    let s2 := tool_node cap s1
    let s3 := process_documents cap s2
    if check_relevance cap s3 then
      ⟨generate_answer cap (relevance_passed_handler s3),
       ["moderation_passed", "retriever", "process_documents",
        "relevance_passed", "generate_answer"],
       executed_tool_calls s1⟩
    else
      ⟨relevance_failed_handler s3,
       ["moderation_passed", "retriever", "process_documents",
        "relevance_failed"],
       executed_tool_calls s1⟩
  else
    ⟨moderation_failed_handler s0, ["moderation_failed"], []⟩

/-- ChatService.ask_question: runs the agent (passing its k through as
retrieval_k), reads answer and sources off the final state, and
deduplicates the sources. -/
def ask_question (cap : Capabilities) (question : String) (k : Nat := 5) :
    String × List String :=
  let result := (invoke_agent cap question k).final
  let answer := result.answer
  let sources := result.sources
  (answer, if sources.isEmpty then [] else sources.dedup)

/-! Batched vector writes (services/pg_document_service.py). -/

/-- Partition into groups of size n + 1, in order. -/
def batchesAux (n : Nat) : List α → List (List α)
  | [] => []
  | x :: xs => (x :: xs.take n) :: batchesAux n (xs.drop n)
termination_by l => l.length
decreasing_by simp [List.length_drop]; omega

/-- The slices documents[i : i + n] for i = 0, n, 2n, ... that the write
loop of create_document iterates over (n > 0; the settings fix
BATCH_SIZE = 50 and SUB_BATCH_SIZE = 10). -/
def toBatches (n : Nat) (l : List α) : List (List α) :=
  match n with
  | 0 => []
  | m + 1 => batchesAux m l

/-- The sub-batch retry loop of create_document: each sub-batch is
attempted once; a failing sub-batch is logged and skipped (continue), so
later sub-batches are still attempted. Returns the processed count and
the attempted calls in order. The success of an aadd_documents call is
an oracle on the attempted list. -/
def processSubBatches (ok : List α → Bool) : List (List α) → Nat × List (List α)
  | [] => (0, [])
  | sb :: rest =>
    let r := processSubBatches ok rest
    if ok sb then (sb.length + r.1, sb :: r.2) else (r.1, sb :: r.2)

/-- The top-level batch loop of create_document: each batch is attempted;
on failure, if the batch is larger than SUB (the sub-batch size), it is
retried split into sub-batches of SUB, otherwise it is skipped; in either
case the loop continues with the next batch. -/
def processBatches (ok : List α → Bool) (SUB : Nat) :
    List (List α) → Nat × List (List α)
  | [] => (0, [])
  | b :: rest =>
    let r := processBatches ok SUB rest
    if ok b then (b.length + r.1, b :: r.2)
    else if SUB < b.length then
      let sub := processSubBatches ok (toBatches SUB b)
      (sub.1 + r.1, b :: (sub.2 ++ r.2))
    else (r.1, b :: r.2)

/-- PGDocumentService.create_document over an already-chunked document:
runs the batch loop, and afterwards raises (which the outer except turns
into HTTPException 500) exactly when processed_chunks == 0; a partial
success is only logged as a warning. Returns (escalation outcome,
processed count, attempted calls). -/
def create_document (ok : List α → Bool) (BATCH SUB : Nat) (chunks : List α) :
    Except PyErr Unit × Nat × List (List α) :=
  let r := processBatches ok SUB (toBatches BATCH chunks)
  (if r.1 = 0 then
     .error ⟨"HTTPException 500: Failed to save document to database: No chunks were successfully processed"⟩
   else .ok (), r.1, r.2)

/-! Chunking settings (config/settings.py). -/

/-- The ChunkingSettings BaseSettings class of config/settings.py. -/
structure ChunkingSettings where
  STRATEGY : String
  MODEL_NAME : String
  CHUNK_SIZE : Int
  OVERLAP_SIZE : Int
  BATCH_SIZE : Int
  SUB_BATCH_SIZE : Int
deriving DecidableEq

/-- Construction (pydantic validation) of ChunkingSettings: the class
declares typed fields and no field or model validator, so every
well-typed assignment is accepted; in particular no relation between
OVERLAP_SIZE and CHUNK_SIZE is checked. -/
def ChunkingSettings.construct (strategy model : String)
    (chunk_size overlap_size batch_size sub_batch_size : Int) :
    Except PyErr ChunkingSettings :=
  .ok { STRATEGY := strategy, MODEL_NAME := model, CHUNK_SIZE := chunk_size,
        OVERLAP_SIZE := overlap_size, BATCH_SIZE := batch_size,
        SUB_BATCH_SIZE := sub_batch_size }

/-! General chunking strategy (document_chunker.py). -/

/-- A chunk document produced by _general_split: the contextualized
content, the base metadata carried over, and the chunk_index entry the
method adds to the metadata. -/
structure SplitDoc where
  page_content : String
  metadata : List (String × String)
  chunk_index : Nat

/-- The context_parts list built for chunk i in _general_split: up to
context_window preceding base chunks (nearest first, guarded by
i - j >= 0), the current chunk, then up to context_window following base
chunks (guarded by i + j < len). -/
def contextParts (base : List String) (context_window i : Nat) : List String :=
  let preceding := (List.range context_window).filterMap
    (fun j => if j + 1 ≤ i then some (base.getD (i - (j + 1)) "") else none)
  let following := (List.range context_window).filterMap
    (fun j => if i + (j + 1) < base.length then some (base.getD (i + (j + 1)) "") else none)
  preceding ++ [base.getD i ""] ++ following

/-- DocumentChunker._general_split: splits the text with the
RecursiveCharacterTextSplitter (external; modelled as the split_text
parameter, applied to the configured chunk_size and chunk_overlap), then
for each base chunk i builds the contextualized content and the metadata
enhanced with chunk_index = i, in enumerate order. -/
def general_split (split_text : Nat → Nat → String → List String)
    (page_content : String) (metadata : List (String × String))
    (chunk_size chunk_overlap context_window : Nat) : List SplitDoc :=
  let base_chunks := split_text chunk_size chunk_overlap page_content
  (List.range base_chunks.length).map (fun i =>
    { page_content := String.intercalate "\n" (contextParts base_chunks context_window i),
      metadata := metadata,
      chunk_index := i })

/-! Concrete capability doubles used in closed statements. -/

/-- A baseline capability double: moderation echoes its input (safe),
vector search finds nothing, the direct tool call raises (calling the
StructuredTool object as a plain function), the judge answers true, the
LLM echoes its prompt, detection answers en. -/
def capStub : Capabilities :=
  { moderationChain := fun s => .ok ⟨s, s⟩,
    vectorSearch := fun _ _ => .ok [],
    directToolCall := fun _ => .error ⟨"TypeError: StructuredTool object is not callable"⟩,
    judge := fun _ => .ok true,
    llmGenerate := fun p => .ok p,
    detect := fun _ => .ok "en" }

/-- Capability doubles for end-to-end scenario A of the spec: moderation
reports safe, retrieval returns the single refund-policy document with
one source, the relevance judgment would be true, and the answer LLM
would echo the policy text. -/
def scenario_cap : Capabilities :=
  { moderationChain := fun s => .ok ⟨s, s⟩,
    vectorSearch := fun _ _ =>
      .ok [("Refunds are issued within 30 days.", [("filename", "policy.txt")])],
    directToolCall := fun _ => .error ⟨"TypeError: StructuredTool object is not callable"⟩,
    judge := fun _ => .ok true,
    llmGenerate := fun _ => .ok "Refunds are issued within 30 days.",
    detect := fun _ => .ok "en" }

/-- A state with one retrieved document, for instantiating universally
quantified statements. -/
def s_docs : State := { input := "q", documents := ["doc"] }

/-- A state with no retrieved documents and a nonempty query. -/
def s_nodocs : State := { input := "q" }

/-- A capability double whose judge always raises and whose direct tool
call finds nothing. -/
def cap_judge_raises : Capabilities :=
  { capStub with
    judge := fun _ => .error ⟨"APIError"⟩,
    directToolCall := fun _ => .ok ([], []) }

/-- A capability double whose moderation chain raises. -/
def cap_mod_raises : Capabilities :=
  { capStub with moderationChain := fun _ => .error ⟨"APIConnectionError"⟩ }

/-- A moderation chain response for a flagged input: the chain rewrites
the output, so input and output differ. -/
def flaggedResponse : ModResponse :=
  ⟨"bad text", "Text was found that violates the content policy"⟩

/-- A capability double whose moderation chain flags every input. -/
def cap_mod_flags : Capabilities :=
  { capStub with moderationChain := fun _ => .ok flaggedResponse }

/-- A capability double whose language detection raises, as langdetect
does on feature-free text. -/
def cap_detect_raises : Capabilities :=
  { capStub with detect := fun _ => .error ⟨"LangDetectException: No features in text."⟩ }

/-- A feature-free query with no documents in state: langdetect raises on
it before the empty-documents short circuit is reached. -/
def s_c9 : State := { input := "!!!", documents := [] }

/-- A capability double whose answer LLM raises. -/
def cap_llm_raises : Capabilities :=
  { capStub with llmGenerate := fun _ => .error ⟨"RateLimitError"⟩ }

/-! Theorems. -/

/-- Shared lemma: every run of check_relevance yields false. If the
documents under judgment are empty (or the fallback retrieval raised),
the try block itself returns false; otherwise the attribute read on the
un-awaited coroutine raises and the except handler returns false. -/
theorem check_relevance_run_result_false (cap : Capabilities) (s : State) :
    (check_relevance_run cap s).result = false := by
  unfold check_relevance_run
  split
  · rfl
  · split
    · rfl
    · simp only [chainAInvoke, getattrRelevance]

/-- C1: for every pipeline state whose documents list is non-empty,
check_relevance returns false (the judgment path reads the relevance
attribute off the un-awaited coroutine, which raises inside the try block
and is converted to false by the except handler); consequently, in the
compiled graph, the relevance_passed node and the generate_answer node
are never visited, for every capability behavior and every input query. -/
theorem relevance_always_false_and_generation_unreachable :
    (∀ (cap : Capabilities) (s : State),
        s.documents ≠ [] → check_relevance cap s = false)
    ∧ (∀ (cap : Capabilities) (query : String) (k : Nat),
        "relevance_passed" ∉ (invoke_agent cap query k).visited
        ∧ "generate_answer" ∉ (invoke_agent cap query k).visited) := by
  constructor
  · intro cap s _
    exact check_relevance_run_result_false cap s
  · intro cap query k
    unfold invoke_agent
    by_cases hm : moderate cap (initial_state query)
    · simp only [hm, if_true, check_relevance, check_relevance_run_result_false,
        Bool.false_eq_true, if_false]
      constructor <;> decide
    · simp only [hm, Bool.false_eq_true, if_false]
      constructor <;> decide

/-- Witness for C1 at a concrete state with one document. -/
theorem relevance_always_false_witness :
    s_docs.documents ≠ [] ∧ check_relevance capStub s_docs = false :=
  ⟨by decide,
   relevance_always_false_and_generation_unreachable.1 capStub s_docs (by decide)⟩

/-- C7: the relevance judge fails closed: when the state documents are
empty and the fallback retrieval finds nothing, check_relevance returns
false without reaching the judgment chain invocation; and against a
judgment capability that raises on every input, check_relevance returns
false rather than propagating the exception. -/
theorem relevance_fails_closed (cap : Capabilities) (s : State) :
    (s.documents = [] → cap.directToolCall s.input = Except.ok ([], []) →
      check_relevance_run cap s = ⟨false, false⟩)
    ∧ ((∀ p, ∃ e, cap.judge p = Except.error e) → check_relevance cap s = false) := by
  constructor
  · intro h1 h2
    unfold check_relevance_run retrieved_documents
    simp [h1, h2]
  · intro _
    exact check_relevance_run_result_false cap s

/-- Witness for C7: empty documents with an empty fallback retrieval and
an always-raising judge. -/
theorem relevance_fails_closed_witness :
    check_relevance_run cap_judge_raises s_nodocs = ⟨false, false⟩
    ∧ check_relevance cap_judge_raises s_nodocs = false :=
  ⟨(relevance_fails_closed cap_judge_raises s_nodocs).1 rfl rfl,
   (relevance_fails_closed cap_judge_raises s_nodocs).2 (fun _ => ⟨⟨"APIError"⟩, rfl⟩)⟩

/-- C8: the moderation gate fails open: if the moderation capability call
raises, moderate returns true (safe); when the call succeeds, moderate
returns the safe/flagged classification of the response, namely whether
the output echoes the input. -/
theorem moderation_fails_open (cap : Capabilities) (s : State) :
    ((∃ e, cap.moderationChain s.input = Except.error e) → moderate cap s = true)
    ∧ (∀ r, cap.moderationChain s.input = Except.ok r →
        moderate cap s = r.is_safe) := by
  constructor
  · rintro ⟨e, he⟩
    unfold moderate
    simp [he]
  · intro r hr
    unfold moderate ModResponse.is_safe
    simp [hr]

/-- Witness for C8: a raising moderation chain yields safe; a flagging
chain yields its (unsafe) classification. -/
theorem moderation_fails_open_witness :
    moderate cap_mod_raises s_nodocs = true
    ∧ moderate cap_mod_flags s_nodocs = flaggedResponse.is_safe
    ∧ flaggedResponse.is_safe = false :=
  ⟨(moderation_fails_open cap_mod_raises s_nodocs).1 ⟨⟨"APIConnectionError"⟩, rfl⟩,
   (moderation_fails_open cap_mod_flags s_nodocs).2 flaggedResponse rfl,
   by decide⟩

/-- C2 (evaluating the code at the failing input): invoke_agent builds
its initial state with the constant RETRIEVAL_TOP_K = 3 and never reads
its retrieval_k parameter, so for every per-call retrieval_k the
moderation-passed transition issues the retrieval tool call with k = 3;
in particular a per-call value of 7, and the documented default of 5,
are never the k of the tool call. -/
theorem invoke_agent_ignores_retrieval_k :
    (∀ rk : Nat,
      (invoke_agent capStub "What is the refund policy?" rk).tool_calls
        = [{ query := "What is the refund policy?", k := RETRIEVAL_TOP_K }])
    ∧ RETRIEVAL_TOP_K = 3 ∧ RETRIEVAL_TOP_K ≠ 7 ∧ RETRIEVAL_TOP_K ≠ 5 := by
  refine ⟨fun rk => ?_, rfl, by decide, by decide⟩
  rfl

/-- C3 (evaluating the code at the failing input): end-to-end scenario A.
For the input query, with moderation reporting safe, retrieval returning
the single refund-policy document with one source, and a relevance
judgment that would be true, the pipeline ends in relevance_failed: the
answer is the canned retrieval-failed message (it does not contain the
policy text) and the sources list is empty, not of length 1. This holds
for every behavior of the direct tool call inside check_relevance. -/
theorem scenario_a_diverges :
    ∀ dtc : String → Except PyErr (List String × List Meta),
      ((invoke_agent { scenario_cap with directToolCall := dtc }
          "What is the refund policy?" 5).final.answer = RETRIEVAL_FAILED_MESSAGE)
      ∧ ((invoke_agent { scenario_cap with directToolCall := dtc }
          "What is the refund policy?" 5).final.sources = [])
      ∧ ((ask_question { scenario_cap with directToolCall := dtc }
          "What is the refund policy?" 5).2 = []) := by
  intro dtc
  have hmod : moderate { scenario_cap with directToolCall := dtc }
      (initial_state "What is the refund policy?") = true := rfl
  have hrel : ∀ s, check_relevance { scenario_cap with directToolCall := dtc } s = false :=
    fun s => check_relevance_run_result_false _ s
  unfold ask_question invoke_agent
  simp only [hmod, if_true, hrel, Bool.false_eq_true, if_false]
  exact ⟨rfl, rfl, rfl⟩

/-- C9 counterexample: with an empty documents list but a feature-free
query, the language-detection call raises before the empty-documents
short circuit is reached, so generate_answer returns the templated error
string rather than the fixed no-basis message. -/
theorem generate_answer_empty_docs_counterexample :
    s_c9.documents = []
    ∧ (generate_answer cap_detect_raises s_c9).answer
        = answerErrorMessage ⟨"LangDetectException: No features in text."⟩
    ∧ (generate_answer cap_detect_raises s_c9).answer ≠ NO_DOCUMENTS_ANSWER := by
  refine ⟨rfl, rfl, ?_⟩
  decide

/-- C9 amended: the answer generator always yields a string: if the
documents list is empty and the language-detection step does not raise
(it is skipped when the query is empty), it returns the fixed no-basis
message without calling the generation capability; whenever the try
block raises (language detection or the generation call), generate_answer
returns the templated error-explanation string instead of propagating;
and a successful try block yields its string. -/
theorem generate_answer_total (cap : Capabilities) (s : State) :
    ((s.input = "" ∨ ∃ l, cap.detect s.input = Except.ok l) → s.documents = [] →
      generate_answer_run cap s = ⟨Except.ok NO_DOCUMENTS_ANSWER, false⟩)
    ∧ (∀ e, (generate_answer_run cap s).outcome = Except.error e →
        (generate_answer cap s).answer = answerErrorMessage e
        ∧ (generate_answer cap s).is_last_step = true)
    ∧ (∀ a, (generate_answer_run cap s).outcome = Except.ok a →
        (generate_answer cap s).answer = a) := by
  refine ⟨?_, ?_, ?_⟩
  · intro h hd
    unfold generate_answer_run
    by_cases hq : s.input = ""
    · simp [hq, hd]
    · rcases h with h | ⟨l, hl⟩
      · exact absurd h hq
      · simp [hq, hl, hd]
  · intro e he
    unfold generate_answer
    rw [he]
    exact ⟨rfl, rfl⟩
  · intro a ha
    unfold generate_answer
    rw [ha]

/-- Witness for C9 amended: empty documents with successful detection
give the fixed message without an LLM call; a raising generation
capability gives the templated error string. -/
theorem generate_answer_total_witness :
    generate_answer_run capStub s_nodocs = ⟨Except.ok NO_DOCUMENTS_ANSWER, false⟩
    ∧ (generate_answer cap_llm_raises s_docs).answer
        = answerErrorMessage ⟨"RateLimitError"⟩ :=
  ⟨(generate_answer_total capStub s_nodocs).1 (Or.inr ⟨"en", rfl⟩) rfl,
   ((generate_answer_total cap_llm_raises s_docs).2.1 ⟨"RateLimitError"⟩ rfl).1⟩

/-- Shared lemma: the size-(n+1) partition concatenates back to the
original list. -/
theorem batchesAux_join (n : Nat) (l : List α) : (batchesAux n l).flatten = l := by
  have H : ∀ (k : Nat) (l : List α), l.length ≤ k → (batchesAux n l).flatten = l := by
    intro k
    induction k with
    | zero =>
        intro l hl
        have hnil : l = [] := List.eq_nil_of_length_eq_zero (Nat.le_zero.mp hl)
        subst hnil
        simp [batchesAux]
    | succ k ih =>
        intro l hl
        match l with
        | [] => simp [batchesAux]
        | x :: xs =>
            have hd : (xs.drop n).length ≤ k := by
              simp only [List.length_cons] at hl
              simp only [List.length_drop]
              omega
            rw [batchesAux, List.flatten_cons, ih (xs.drop n) hd,
              List.cons_append, List.take_append_drop]
  exact H l.length l (Nat.le_refl _)

/-- Shared lemma: every group of the size-(n+1) partition is non-empty
and of length at most n + 1. -/
theorem batchesAux_mem (n : Nat) (l : List α) :
    ∀ b ∈ batchesAux n l, b ≠ [] ∧ b.length ≤ n + 1 := by
  have H : ∀ (k : Nat) (l : List α), l.length ≤ k →
      ∀ b ∈ batchesAux n l, b ≠ [] ∧ b.length ≤ n + 1 := by
    intro k
    induction k with
    | zero =>
        intro l hl
        have hnil : l = [] := List.eq_nil_of_length_eq_zero (Nat.le_zero.mp hl)
        subst hnil
        simp [batchesAux]
    | succ k ih =>
        intro l hl
        match l with
        | [] => simp [batchesAux]
        | x :: xs =>
            have hd : (xs.drop n).length ≤ k := by
              simp only [List.length_cons] at hl
              simp only [List.length_drop]
              omega
            intro b hb
            rw [batchesAux] at hb
            rcases List.mem_cons.mp hb with hb | hb
            · subst hb
              refine ⟨List.cons_ne_nil _ _, ?_⟩
              simp only [List.length_cons, List.length_take]
              omega
            · exact ih (xs.drop n) hd b hb
  exact H l.length l (Nat.le_refl _)

/-- Shared lemma: the sub-batch retry loop attempts exactly the given
sub-batches, in order, regardless of which of them fail. -/
theorem processSubBatches_trace (ok : List α → Bool) (subs : List (List α)) :
    (processSubBatches ok subs).2 = subs := by
  induction subs with
  | nil => rfl
  | cons sb rest ih =>
      unfold processSubBatches
      cases hok : ok sb <;> simp [hok, ih]

/-- Shared lemma: when every call succeeds, the sub-batch loop processes
the total length of its input. -/
theorem processSubBatches_all_ok (ok : List α → Bool) (h : ∀ l, ok l = true)
    (subs : List (List α)) :
    (processSubBatches ok subs).1 = (subs.map List.length).sum := by
  induction subs with
  | nil => rfl
  | cons sb rest ih =>
      unfold processSubBatches
      simp [h sb, ih]

/-- Shared lemma: the attempted calls of the batch loop are, per top-level
batch in order: the batch itself, followed (only when it failed and is
larger than the sub-batch size) by its sub-batches of the sub-batch size,
each exactly once; no failure aborts the remaining batches. -/
theorem processBatches_trace (ok : List α → Bool) (SUB : Nat)
    (bs : List (List α)) :
    (processBatches ok SUB bs).2
      = bs.flatMap (fun b =>
          if ok b then [b]
          else if SUB < b.length then b :: toBatches SUB b else [b]) := by
  induction bs with
  | nil => rfl
  | cons b rest ih =>
      unfold processBatches
      cases hok : ok b
      · by_cases hs : SUB < b.length
        · simp [hok, hs, ih, processSubBatches_trace]
        · simp [hok, hs, ih]
      · simp [hok, ih]

/-- Shared lemma: when every call succeeds, the batch loop processes the
total length of its input batches. -/
theorem processBatches_all_ok (ok : List α → Bool) (SUB : Nat)
    (h : ∀ l, ok l = true) (bs : List (List α)) :
    (processBatches ok SUB bs).1 = (bs.map List.length).sum := by
  induction bs with
  | nil => rfl
  | cons b rest ih =>
      unfold processBatches
      simp [h b, ih]

/-- C5: for a non-empty chunk list, create_document escalates a hard
error to the caller if and only if zero chunks were processed after all
batches were attempted; any positive processed count (partial success
included) yields no error; and when every batch call succeeds the
processed count equals the total chunk count with no error. -/
theorem create_document_escalation (α : Type) (ok : List α → Bool)
    (BATCH SUB : Nat) (chunks : List α) (hB : 0 < BATCH) (hne : chunks ≠ []) :
    ((∃ e, (create_document ok BATCH SUB chunks).1 = Except.error e)
        ↔ (create_document ok BATCH SUB chunks).2.1 = 0)
    ∧ (0 < (create_document ok BATCH SUB chunks).2.1 →
        (create_document ok BATCH SUB chunks).1 = Except.ok ())
    ∧ ((∀ l, ok l = true) →
        (create_document ok BATCH SUB chunks).2.1 = chunks.length
        ∧ (create_document ok BATCH SUB chunks).1 = Except.ok ()) := by
  have hall : (∀ l, ok l = true) →
      (processBatches ok SUB (toBatches BATCH chunks)).1 = chunks.length := by
    intro h
    rw [processBatches_all_ok ok SUB h, ← List.length_flatten]
    obtain ⟨m, rfl⟩ : ∃ m, BATCH = m + 1 := ⟨BATCH - 1, by omega⟩
    rw [show toBatches (m + 1) chunks = batchesAux m chunks from rfl,
      batchesAux_join]
  by_cases hp : (processBatches ok SUB (toBatches BATCH chunks)).1 = 0
  · refine ⟨?_, ?_, ?_⟩
    · simp [create_document, hp]
    · simp [create_document, hp]
    · intro h
      exfalso
      have := hall h
      rw [hp] at this
      exact hne (List.eq_nil_of_length_eq_zero this.symm)
  · refine ⟨?_, ?_, ?_⟩
    · simp [create_document, hp]
    · intro _
      simp [create_document, hp]
    · intro h
      exact ⟨hall h, by simp [create_document, hp]⟩

/-- Witness for C5: two batches of size two and one of size one, all
succeeding: three chunks processed, no escalation. -/
theorem create_document_escalation_witness :
    (create_document (fun _ : List Nat => true) 2 1 [1, 2, 3]).2.1 = 3
    ∧ (create_document (fun _ : List Nat => true) 2 1 [1, 2, 3]).1 = Except.ok () := by
  have h := (create_document_escalation Nat (fun _ => true) 2 1 [1, 2, 3]
      (by decide) (by decide)).2.2 (fun _ => rfl)
  simpa using h

/-- C6: the writer partitions the chunk list into sequential batches of
the batch size (they concatenate back to the chunk list, each non-empty
and no longer than the batch size), and the attempted insert calls are,
per batch in order: the batch, then, exactly when it failed and exceeds
the sub-batch size, its sub-batches of the sub-batch size, each attempted
exactly once and never retried; no failing batch or sub-batch prevents
the attempts that follow. -/
theorem create_document_batching (α : Type) (ok : List α → Bool)
    (BATCH SUB : Nat) (chunks : List α) (hB : 0 < BATCH) :
    (toBatches BATCH chunks).flatten = chunks
    ∧ (∀ b ∈ toBatches BATCH chunks, b ≠ [] ∧ b.length ≤ BATCH)
    ∧ (create_document ok BATCH SUB chunks).2.2
        = (toBatches BATCH chunks).flatMap
            (fun b =>
              if ok b then [b]
              else if SUB < b.length then b :: toBatches SUB b else [b]) := by
  obtain ⟨m, rfl⟩ : ∃ m, BATCH = m + 1 := ⟨BATCH - 1, by omega⟩
  exact ⟨batchesAux_join m chunks, batchesAux_mem m chunks,
    processBatches_trace ok SUB (toBatches (m + 1) chunks)⟩

/-- Witness for C6: five chunks, batch size 4, sub-batch size 2; the
oracle fails any call of more than two chunks, so the first batch is
split and retried as two sub-batches and the second batch succeeds. -/
theorem create_document_batching_witness :
    (create_document (fun l : List Nat => decide (l.length ≤ 2)) 4 2
        [1, 2, 3, 4, 5]).2.2
      = [[1, 2, 3, 4], [1, 2], [3, 4], [5]] := by
  have h := (create_document_batching Nat (fun l => decide (l.length ≤ 2)) 4 2
      [1, 2, 3, 4, 5] (by decide)).2.2
  rw [h]
  simp [toBatches, batchesAux]

/-- C10: the general-strategy chunk outputs are in enumerate
(left-to-right) order and their chunk_index metadata values are exactly
0, 1, ..., len - 1: one chunk per base chunk, indices dense, strictly
increasing and starting at 0, for every input text and every splitter
behavior. -/
theorem general_split_chunk_index
    (split_text : Nat → Nat → String → List String) (page_content : String)
    (metadata : List (String × String))
    (chunk_size chunk_overlap context_window : Nat) :
    (general_split split_text page_content metadata chunk_size chunk_overlap
        context_window).map SplitDoc.chunk_index
      = List.range (split_text chunk_size chunk_overlap page_content).length
    ∧ (general_split split_text page_content metadata chunk_size chunk_overlap
        context_window).length
      = (split_text chunk_size chunk_overlap page_content).length := by
  constructor
  · unfold general_split
    rw [List.map_map]
    simp only [Function.comp_def]
    exact List.map_id' _
  · unfold general_split
    simp

/-- C4 (evaluating the code at the failing input): ChunkingSettings
declares no field or cross-field validator, so a configuration whose
OVERLAP_SIZE equals its CHUNK_SIZE (500 and 500) is accepted at
config-load time, not rejected; indeed construction succeeds for every
well-typed assignment. -/
theorem chunking_settings_accepts_overlap_ge_chunk :
    (ChunkingSettings.construct "general" "text-embedding-3-small" 500 500 50 10
      = Except.ok ⟨"general", "text-embedding-3-small", 500, 500, 50, 10⟩)
    ∧ (∀ (st mn : String) (cs ov bs sbs : Int),
        ChunkingSettings.construct st mn cs ov bs sbs
          = Except.ok ⟨st, mn, cs, ov, bs, sbs⟩) :=
  ⟨rfl, fun _ _ _ _ _ _ => rfl⟩

end ChatBot
